import Mathlib

/-!
Shallow embedding of `src/sim/runner.py` from build-test-pipeline-sim:
a deterministic build-then-test pipeline simulator driven by a YAML
configuration.  Machine integers do not occur in the Python source (it
works with unbounded ints, strings and floats); SHA-256, which the
source takes from `hashlib`, is embedded here directly over byte lists
with all word arithmetic taken modulo 2^32.
-/

namespace Sim

/-! ## SHA-256 (the `hashlib.sha256(...).hexdigest()` used by `_digest`) -/

def mask32 : Nat := 4294967295

def rotr (n x : Nat) : Nat := ((x >>> n) ||| (x <<< (32 - n))) &&& mask32

/-- The 64 SHA-256 round constants (written in decimal). -/
def sha256K : List Nat :=
  [1116352408, 1899447441, 3049323471, 3921009573, 961987163, 1508970993,
   2453635748, 2870763221, 3624381080, 310598401, 607225278, 1426881987,
   1925078388, 2162078206, 2614888103, 3248222580, 3835390401, 4022224774,
   264347078, 604807628, 770255983, 1249150122, 1555081692, 1996064986,
   2554220882, 2821834349, 2952996808, 3210313671, 3336571891, 3584528711,
   113926993, 338241895, 666307205, 773529912, 1294757372, 1396182291,
   1695183700, 1986661051, 2177026350, 2456956037, 2730485921, 2820302411,
   3259730800, 3345764771, 3516065817, 3600352804, 4094571909, 275423344,
   430227734, 506948616, 659060556, 883997877, 958139571, 1322822218,
   1537002063, 1747873779, 1955562222, 2024104815, 2227730452, 2361852424,
   2428436474, 2756734187, 3204031479, 3329325298]

/-- The SHA-256 initial hash state (written in decimal). -/
def sha256H0 : List Nat :=
  [1779033703, 3144134277, 1013904242, 2773480762,
   1359893119, 2600822924, 528734635, 1541459225]

def smallSigma0 (x : Nat) : Nat := (rotr 7 x) ^^^ (rotr 18 x) ^^^ (x >>> 3)

def smallSigma1 (x : Nat) : Nat := (rotr 17 x) ^^^ (rotr 19 x) ^^^ (x >>> 10)

def bigSigma0 (x : Nat) : Nat := (rotr 2 x) ^^^ (rotr 13 x) ^^^ (rotr 22 x)

def bigSigma1 (x : Nat) : Nat := (rotr 6 x) ^^^ (rotr 11 x) ^^^ (rotr 25 x)

def chFn (x y z : Nat) : Nat := (x &&& y) ^^^ ((x ^^^ mask32) &&& z)

def majFn (x y z : Nat) : Nat := (x &&& y) ^^^ (x &&& z) ^^^ (y &&& z)

/-- SHA-256 padding: append 0x80, zero bytes to reach 56 mod 64, then the
bit length as 8 big-endian bytes. -/
def sha256Pad (msg : List Nat) : List Nat :=
  let L := msg.length
  let z := (119 - L % 64) % 64
  msg ++ [128] ++ List.replicate z 0 ++
    (List.range 8).map (fun i => ((8 * L) >>> (8 * (7 - i))) &&& 255)

/-- Split a byte list into 64-byte blocks (structural recursion on a fuel
argument so the definition reduces by computation; the fuel `l.length`
always suffices since each step consumes at least one byte). -/
def chunk64Aux : Nat → List Nat → List (List Nat)
  | 0, _ => []
  | _ + 1, [] => []
  | n + 1, x :: xs => (x :: xs).take 64 :: chunk64Aux n ((x :: xs).drop 64)

def chunk64 (l : List Nat) : List (List Nat) := chunk64Aux l.length l

/-- Big-endian 32-bit words from bytes. -/
def toWords : List Nat → List Nat
  | b0 :: b1 :: b2 :: b3 :: rest =>
      ((((b0 <<< 8) ||| b1) <<< 8 ||| b2) <<< 8 ||| b3) :: toWords rest
  | _ => []

/-- Message-schedule extension from 16 to 64 words. -/
def schedule (ws : Array Nat) : Array Nat :=
  (List.range 48).foldl (fun w j =>
    let i := j + 16
    w.push ((smallSigma1 (w.getD (i - 2) 0) + w.getD (i - 7) 0 +
             smallSigma0 (w.getD (i - 15) 0) + w.getD (i - 16) 0) &&& mask32)) ws

structure Hash8 where
  a : Nat
  b : Nat
  c : Nat
  d : Nat
  e : Nat
  f : Nat
  g : Nat
  h : Nat

def sha256Round (s : Hash8) (k w : Nat) : Hash8 :=
  let t1 := (s.h + bigSigma1 s.e + chFn s.e s.f s.g + k + w) &&& mask32
  let t2 := (bigSigma0 s.a + majFn s.a s.b s.c) &&& mask32
  ⟨(t1 + t2) &&& mask32, s.a, s.b, s.c, (s.d + t1) &&& mask32, s.e, s.f, s.g⟩

def compressBlock (h : List Nat) (block : List Nat) : List Nat :=
  let ws := schedule (Array.mk (toWords block))
  let s0 : Hash8 := ⟨h.getD 0 0, h.getD 1 0, h.getD 2 0, h.getD 3 0,
                     h.getD 4 0, h.getD 5 0, h.getD 6 0, h.getD 7 0⟩
  let s := (List.range 64).foldl
    (fun s i => sha256Round s (sha256K.getD i 0) (ws.getD i 0)) s0
  [(h.getD 0 0 + s.a) &&& mask32, (h.getD 1 0 + s.b) &&& mask32,
   (h.getD 2 0 + s.c) &&& mask32, (h.getD 3 0 + s.d) &&& mask32,
   (h.getD 4 0 + s.e) &&& mask32, (h.getD 5 0 + s.f) &&& mask32,
   (h.getD 6 0 + s.g) &&& mask32, (h.getD 7 0 + s.h) &&& mask32]

def sha256Words (msg : List Nat) : List Nat :=
  (chunk64 (sha256Pad msg)).foldl compressBlock sha256H0

def hexChar (n : Nat) : Char := if n < 10 then Char.ofNat (48 + n) else Char.ofNat (87 + n)

def wordHex (w : Nat) : List Char :=
  (List.range 8).map (fun i => hexChar ((w >>> (4 * (7 - i))) &&& 15))

/-- Lowercase hex digest of a byte list, as `hashlib...hexdigest()` returns. -/
def sha256Hex (msg : List Nat) : String :=
  String.mk ((sha256Words msg).map wordHex).flatten

/-- UTF-8 encoding of one character, as Python's `str.encode()` produces. -/
def utf8Char (c : Char) : List Nat :=
  let n := c.toNat
  if n < 128 then [n]
  else if n < 2048 then [192 ||| (n >>> 6), 128 ||| (n &&& 63)]
  else if n < 65536 then
    [224 ||| (n >>> 12), 128 ||| ((n >>> 6) &&& 63), 128 ||| (n &&& 63)]
  else
    [240 ||| (n >>> 18), 128 ||| ((n >>> 12) &&& 63), 128 ||| ((n >>> 6) &&& 63), 128 ||| (n &&& 63)]

/-- UTF-8 bytes of a string (`(name + payload).encode()`). -/
def strBytes (s : String) : List Nat := (s.data.map utf8Char).flatten

/-- Embedding of `_digest` at `src/sim/runner.py:59-61`:
`hashlib.sha256((name + payload).encode()).hexdigest()`. -/
def digestOf (name payload : String) : String := sha256Hex (strBytes (name ++ payload))

/-! ## Parsed YAML / Python value model

`yaml.safe_load` yields Python values: `None`, booleans, ints, floats,
strings, lists and dicts.  Floats are modelled as rationals; dicts as
association lists with string keys (the configuration schema only ever
uses string keys). -/

inductive Yaml where
  | null
  | bool (b : Bool)
  | int (n : Int)
  | float (q : ℚ)
  | str (s : String)
  | list (xs : List Yaml)
  | map (kvs : List (String × Yaml))

abbrev Dict := List (String × Yaml)

def Yaml.isNull : Yaml → Bool
  | .null => true
  | _ => false

def Yaml.isMap : Yaml → Bool
  | .map _ => true
  | _ => false

def Yaml.asDict : Yaml → Option Dict
  | .map kvs => some kvs
  | _ => none

/-- Python truthiness (`bool(v)`): `None`, `False`, zero, and empty
strings/lists/dicts are falsy. -/
def pyTruthy : Yaml → Bool
  | .null => false
  | .bool b => b
  | .int n => n != 0
  | .float q => q != 0
  | .str s => s != ""
  | .list xs => !xs.isEmpty
  | .map kvs => !kvs.isEmpty

/-- Simplified rendering of a float for `str()` (exact value is never
inspected by the code under study). -/
def ratStr (q : ℚ) : String :=
  if q.den = 1 then toString q.num ++ ".0" else toString q

def pyQuote (s : String) : String :=
  String.singleton (Char.ofNat 39) ++ s ++ String.singleton (Char.ofNat 39)

mutual

/-- Python `repr()` on parsed-YAML values (string escaping simplified;
only reached through `str()` of list/dict values, which no configuration
in any claim contains). -/
def pyRepr : Yaml → String
  | .null => "None"
  | .bool b => if b then "True" else "False"
  | .int n => toString n
  | .float q => ratStr q
  | .str s => pyQuote s
  | .list xs => "[" ++ String.intercalate ", " (pyReprList xs) ++ "]"
  | .map kvs => "\x7b" ++ String.intercalate ", " (pyReprKVs kvs) ++ "\x7d"

def pyReprList : List Yaml → List String
  | [] => []
  | x :: xs => pyRepr x :: pyReprList xs

def pyReprKVs : List (String × Yaml) → List String
  | [] => []
  | (k, v) :: kvs => (pyQuote k ++ ": " ++ pyRepr v) :: pyReprKVs kvs

end

/-- Python `str()` on parsed-YAML values. -/
def pyStr : Yaml → String
  | .null => "None"
  | .bool b => if b then "True" else "False"
  | .int n => toString n
  | .float q => ratStr q
  | .str s => s
  | .list xs => pyRepr (.list xs)
  | .map kvs => pyRepr (.map kvs)

/-- Characters stripped by Python `str.strip()` (the common whitespace
set; exotic Unicode whitespace is not modelled). -/
def isPySpace (c : Char) : Bool :=
  c = ' ' || c = '\t' || c = '\n' || c = '\r' || c = Char.ofNat 11 || c = Char.ofNat 12

def dropLeadWS : List Char → List Char
  | [] => []
  | c :: cs => if isPySpace c then dropLeadWS cs else c :: cs

/-- Python `str.strip()`: remove leading and trailing whitespace. -/
def pyStrip (s : String) : String :=
  String.mk ((dropLeadWS (dropLeadWS s.data.reverse).reverse))

/-- Decimal parser backing `float(str)` (sign, digits, optional fractional
part; Python additionally accepts exponents/inf/nan, which no claim uses). -/
def digitsVal : List Char → Option Nat
  | [] => none
  | cs => cs.foldl (fun acc c =>
      match acc with
      | none => none
      | some v => if c.isDigit then some (v * 10 + (c.toNat - 48)) else none) (some 0)

def parseDecimal (s : String) : Option ℚ :=
  let cs := (pyStrip s).data
  let (neg, cs) :=
    match cs with
    | c :: rest => if c = '-' then (true, rest) else if c = '+' then (false, rest) else (false, cs)
    | [] => (false, [])
  let (ip, fp) :=
    match cs.span (fun c => c ≠ '.') with
    | (a, []) => (a, none)
    | (a, _ :: b) => (a, some b)
  let value : Option ℚ :=
    match fp with
    | none => (digitsVal ip).map (fun n => (n : ℚ))
    | some f =>
        if ip = [] && f = [] then none
        else
          match digitsVal (ip ++ f), f.length with
          | some n, k => some ((n : ℚ) / (10 ^ k : ℚ))
          | none, _ => none
  value.map (fun q => if neg then -q else q)

/-- Python `float(v)` on a parsed-YAML value; `none` models the
`TypeError`/`ValueError` it raises on unconvertible values. -/
def pyFloat : Yaml → Option ℚ
  | .int n => some (n : ℚ)
  | .float q => some q
  | .bool b => some (if b then 1 else 0)
  | .str s => parseDecimal s
  | _ => none

/-- Dict lookup, `d.get(k)` returning `None` when absent is `pyGet`. -/
def lookupKV (d : Dict) (k : String) : Option Yaml :=
  (d.find? (fun p => p.1 == k)).map (fun p => p.2)

def hasKey (d : Dict) (k : String) : Bool := d.any (fun p => p.1 == k)

def getD (d : Dict) (k : String) (v : Yaml) : Yaml := (lookupKV d k).getD v

def pyGet (d : Dict) (k : String) : Yaml := getD d k .null

/-! ## Errors

One variant per exception class of `src/sim/runner.py`; each carries the
values the class interpolates into its message.  `PipeError.pyError`
models a non-`ConfigError` Python exception (`TypeError`, `ValueError`,
`KeyError`, `AttributeError`) escaping the code under study. -/

inductive ConfigError where
  | notMapping
  | emptyModuleName
  | duplicateModuleNames (names : List String)
  | missingPayload (moduleName : Yaml)
  | negativeModuleSeconds (moduleName : Yaml)
  | emptyTestName
  | unknownModuleRef (testName : String) (target : String)
  | negativeTestSeconds (testName : String)

inductive PipeError where
  | config (e : ConfigError)
  | pyError

def truthyOr (v dflt : Yaml) : Yaml := if pyTruthy v then v else dflt

/-- Embedding of `_load_config` (`src/sim/runner.py:75-80`) from the parsed
document on: `cfg = yaml.safe_load(raw) or {}` replaces a falsy parse
result by the empty dict, then a non-dict raises `NotMappingError`. -/
def load_config (v : Yaml) : Except ConfigError Dict :=
  if pyTruthy v then
    match v with
    | .map kvs => .ok kvs
    | _ => .error .notMapping
  else .ok []

/-- Python `list(x)` over parsed values (list kept, string to its
characters, dict to its keys, the rest `TypeError`). -/
def pyListE : Yaml → Except PipeError (List Yaml)
  | .list xs => .ok xs
  | .str s => .ok (s.data.map (fun c => .str (String.singleton c)))
  | .map kvs => .ok (kvs.map (fun p => .str p.1))
  | _ => .error .pyError

/-- The `list(cfg.get("modules", []) or [])` extraction. -/
def modulesOf (cfg : Dict) : Except PipeError (List Yaml) :=
  pyListE (truthyOr (getD cfg "modules" (.list [])) (.list []))

def testsOf (cfg : Dict) : Except PipeError (List Yaml) :=
  pyListE (truthyOr (getD cfg "tests" (.list [])) (.list []))

/-- The trimmed name `str(m.get("name", "")).strip()` of a module dict. -/
def moduleStrippedName (d : Dict) : String := pyStrip (pyStr (getD d "name" (.str "")))

/-- The list comprehension
`[str(m.get("name", "")).strip() for m in mods]` (`src/sim/runner.py:84`);
a non-dict entry raises at its position (`AttributeError`). -/
def mapNames : List Yaml → Except PipeError (List String)
  | [] => .ok []
  | m :: ms =>
      match m.asDict with
      | none => .error .pyError
      | some d =>
          match mapNames ms with
          | .error e => .error e
          | .ok ns => .ok (moduleStrippedName d :: ns)

/-- The seconds check `"seconds" in m and float(m["seconds"]) < 0`,
yielding the per-module loop continuation. -/
def moduleChecksLoop : List Yaml → Except PipeError Unit
  | [] => .ok ()
  | m :: ms =>
      match m.asDict with
      | none => .error .pyError
      | some d =>
          if !hasKey d "payload" then .error (.config (.missingPayload (pyGet d "name")))
          else
            match lookupKV d "seconds" with
            | none => moduleChecksLoop ms
            | some sv =>
                match pyFloat sv with
                | none => .error .pyError
                | some q =>
                    if q < 0 then .error (.config (.negativeModuleSeconds (pyGet d "name")))
                    else moduleChecksLoop ms

/-- Embedding of `_validate_modules` (`src/sim/runner.py:83-96`). -/
def validate_modules (mods : List Yaml) : Except PipeError Unit :=
  match mapNames mods with
  | .error e => .error e
  | .ok names =>
      if names.any (fun n => n == "") then .error (.config .emptyModuleName)
      else
        let dupes := List.insertionSort (fun a b => a ≤ b)
          ((names.filter (fun n => 1 < names.count n)).dedup)
        if !dupes.isEmpty then .error (.config (.duplicateModuleNames dupes))
        else moduleChecksLoop mods

/-- Embedding of `_validate_tests` (`src/sim/runner.py:99-110`), written
as the explicit loop over tests. -/
def validate_tests (tests : List Yaml) (mod_names : List String) : Except PipeError Unit :=
  match tests with
  | [] => .ok ()
  | t :: ts =>
      match t.asDict with
      | none => .error .pyError
      | some d =>
          let name := pyStrip (pyStr (getD d "name" (.str "")))
          if name = "" then .error (.config .emptyTestName)
          else
            let target := pyStrip (pyStr (getD d "module" (.str "")))
            if target ∈ mod_names then
              match lookupKV d "seconds" with
              | none => validate_tests ts mod_names
              | some sv =>
                  match pyFloat sv with
                  | none => .error .pyError
                  | some q =>
                      if q < 0 then .error (.config (.negativeTestSeconds name))
                      else validate_tests ts mod_names
            else .error (.config (.unknownModuleRef name target))

/-- The set comprehension `{str(m.get("name")) for m in modules}`
(`src/sim/runner.py:118`): the raw, untrimmed module names (the Python
set is modelled as a list, used for membership only). -/
def rawNames : List Yaml → Except PipeError (List String)
  | [] => .ok []
  | m :: ms =>
      match m.asDict with
      | none => .error .pyError
      | some d =>
          match rawNames ms with
          | .error e => .error e
          | .ok ns => .ok (pyStr (pyGet d "name") :: ns)

/-- Embedding of `validate_config` (`src/sim/runner.py:113-118`). -/
def validate_config (v : Yaml) : Except PipeError Unit :=
  match load_config v with
  | .error e => .error (.config e)
  | .ok cfg =>
      match modulesOf cfg with
      | .error e => .error e
      | .ok modules =>
          match testsOf cfg with
          | .error e => .error e
          | .ok tests =>
              match validate_modules modules with
              | .error e => .error e
              | .ok _ =>
                  match rawNames modules with
                  | .error e => .error e
                  | .ok mod_names => validate_tests tests mod_names

/-! ## PlanExplainer (`explain_config`, `src/sim/runner.py:121-150`) -/

structure PlanModule where
  name : String
  payload : String
  seconds : ℚ
  expected_digest : Option String

structure PlanTest where
  name : Yaml
  module : Yaml
  seconds : ℚ
  expects_digest : Bool

structure Plan where
  modules : List PlanModule
  tests : List PlanTest

/-- One entry of the `mod_list` built at `src/sim/runner.py:130-138`. -/
def explainModule (include_digests : Bool) (m : Yaml) : Except PipeError PlanModule :=
  match m.asDict with
  | none => .error .pyError
  | some d =>
      let name := pyStr (pyGet d "name")
      let payload := pyStr (pyGet d "payload")
      match pyFloat (getD d "seconds" (.float (0.2 : ℚ))) with
      | none => .error .pyError
      | some seconds =>
          .ok { name := name, payload := payload, seconds := seconds,
                expected_digest := if include_digests then some (digestOf name payload) else none }

/-- One entry of the `test_list` comprehension at `src/sim/runner.py:140-148`. -/
def explainTest (t : Yaml) : Except PipeError PlanTest :=
  match t.asDict with
  | none => .error .pyError
  | some d =>
      match pyFloat (getD d "seconds" (.float (0.1 : ℚ))) with
      | none => .error .pyError
      | some seconds =>
          .ok { name := pyGet d "name", module := pyGet d "module", seconds := seconds,
                expects_digest := !(pyGet d "expected_digest").isNull }

def explainModules (include_digests : Bool) : List Yaml → Except PipeError (List PlanModule)
  | [] => .ok []
  | m :: ms =>
      match explainModule include_digests m with
      | .error e => .error e
      | .ok pm =>
          match explainModules include_digests ms with
          | .error e => .error e
          | .ok rest => .ok (pm :: rest)

def explainTests : List Yaml → Except PipeError (List PlanTest)
  | [] => .ok []
  | t :: ts =>
      match explainTest t with
      | .error e => .error e
      | .ok pt =>
          match explainTests ts with
          | .error e => .error e
          | .ok rest => .ok (pt :: rest)

/-- Embedding of `explain_config` (`src/sim/runner.py:121-150`): load,
then project modules and tests without validating or simulating. -/
def explain_config (v : Yaml) (include_digests : Bool) : Except PipeError Plan :=
  match load_config v with
  | .error e => .error (.config e)
  | .ok cfg =>
      match modulesOf cfg with
      | .error e => .error e
      | .ok modules =>
          match testsOf cfg with
          | .error e => .error e
          | .ok tests =>
              match explainModules include_digests modules with
              | .error e => .error e
              | .ok mod_list =>
                  match explainTests tests with
                  | .error e => .error e
                  | .ok test_list => .ok { modules := mod_list, tests := test_list }

/-! ## WorkSimulator and PipelineExecutor (`_do_work`, `run_pipeline`) -/

def clampSeconds (s : ℚ) : ℚ := max 0 (min s 2)

/-- Embedding of `_do_work` (`src/sim/runner.py:64-72`): the digest is the
deterministic `_digest(name, payload)`; the sleep of `clamp(seconds,0,2)`
and its wall-clock measurement are modelled by the clamped configured
delay itself (real time is outside the model). -/
def do_work (name payload : String) (seconds : ℚ) : String × ℚ :=
  (digestOf name payload, clampSeconds seconds)

/-- Python dict assignment `artifacts[name] = digest`: replace in place or
append. -/
def insertArtifact (arts : List (String × String)) (k v : String) : List (String × String) :=
  if arts.any (fun p => p.1 == k) then arts.map (fun p => if p.1 == k then (k, v) else p)
  else arts ++ [(k, v)]

def lookupArtifact (arts : List (String × String)) (k : String) : Option String :=
  (arts.find? (fun p => p.1 == k)).map (fun p => p.2)

/-- Python `==` between a parsed-YAML value and a digest string. -/
def yamlEqStr (v : Yaml) (s : String) : Bool :=
  match v with
  | .str t => t == s
  | _ => false

structure TestResult where
  name : String
  module : String
  ok : Bool
  duration_s : ℚ

inductive TeleMeta where
  | digest (d : String)
  | okFlag (ok : Bool)

structure TeleRow where
  stage : String
  name : String
  duration_s : ℚ
  meta : TeleMeta

/-- Ghost record of one WorkSimulator invocation (`_do_work` arguments). -/
structure WorkCall where
  name : String
  payload : String
  seconds : ℚ

structure RunResult where
  dry_run : Bool
  failures : Nat
  tests : List TestResult
  artifacts : List (String × String)

/-- Observable outcome of `run_pipeline`: the exit code, the structured
`config_error` diagnostic when printed, the `results.json` object when
written, the telemetry rows in emission order, and the ghost trace of
WorkSimulator invocations. -/
structure RunOutput where
  exitCode : Nat
  diagnostic : Option ConfigError
  result : Option RunResult
  telemetry : List TeleRow
  calls : List WorkCall

/-- Arguments of the build-phase `_do_work` invocation for a module entry
(`name = str(m["name"])`, `payload = str(m.get("payload", ""))`,
`seconds = float(m.get("seconds", 0.2))`). -/
def buildCallOf (m : Yaml) : Except PipeError WorkCall :=
  match m.asDict with
  | none => .error .pyError
  | some d =>
      match lookupKV d "name" with
      | none => .error .pyError
      | some nv =>
          match pyFloat (getD d "seconds" (.float (0.2 : ℚ))) with
          | none => .error .pyError
          | some seconds => .ok ⟨pyStr nv, pyStr (getD d "payload" (.str "")), seconds⟩

/-- Build phase (`src/sim/runner.py:314-323`), yielding the artifact map,
telemetry rows and work calls in configuration order. -/
def buildPhase : List Yaml → List (String × String) →
    Except PipeError (List (String × String) × List TeleRow × List WorkCall)
  | [], arts => .ok (arts, [], [])
  | m :: ms, arts =>
      match buildCallOf m with
      | .error e => .error e
      | .ok c =>
          let (dg, dur) := do_work c.name c.payload c.seconds
          match buildPhase ms (insertArtifact arts c.name dg) with
          | .error e => .error e
          | .ok (artsF, rows, calls) =>
              .ok (artsF, ⟨"build", c.name, dur, .digest dg⟩ :: rows, c :: calls)

/-- The pass/fail comparison
`ok = (expected is None) or (expected == artifacts.get(target))` from
`src/sim/runner.py:333`. -/
def okCompare (arts : List (String × String)) (expected : Yaml) (target : String) : Bool :=
  expected.isNull ||
    (match lookupArtifact arts target with
     | some dg => yamlEqStr expected dg
     | none => false)

/-- One iteration of the test loop (`src/sim/runner.py:326-345`). -/
def runOneTest (arts : List (String × String)) (t : Yaml) :
    Except PipeError (TestResult × TeleRow × WorkCall) :=
  match t.asDict with
  | none => .error .pyError
  | some d =>
      match lookupKV d "name" with
      | none => .error .pyError
      | some nv =>
          match pyFloat (getD d "seconds" (.float (0.1 : ℚ))) with
          | none => .error .pyError
          | some seconds =>
              let t_name := pyStr nv
              let target := pyStr (getD d "module" (.str ""))
              let expected := pyGet d "expected_digest"
              let wr := do_work t_name target seconds
              let ok := okCompare arts expected target
              .ok (⟨t_name, target, ok, wr.2⟩, ⟨"test", t_name, wr.2, .okFlag ok⟩,
                   ⟨t_name, target, seconds⟩)

/-- Arguments of the test-phase `_do_work` invocation for a test entry:
`(str(t["name"]), str(t.get("module", "")), float(t.get("seconds", 0.1)))`. -/
def testCallOf (t : Yaml) : Except PipeError WorkCall :=
  match t.asDict with
  | none => .error .pyError
  | some d =>
      match lookupKV d "name" with
      | none => .error .pyError
      | some nv =>
          match pyFloat (getD d "seconds" (.float (0.1 : ℚ))) with
          | none => .error .pyError
          | some seconds => .ok ⟨pyStr nv, pyStr (getD d "module" (.str "")), seconds⟩

/-- Test phase: results, telemetry rows, work calls and the incremented
failure counter, in configuration order. -/
def testPhase (arts : List (String × String)) :
    List Yaml → Except PipeError (List TestResult × List TeleRow × List WorkCall × Nat)
  | [] => .ok ([], [], [], 0)
  | t :: ts =>
      match runOneTest arts t with
      | .error e => .error e
      | .ok (r, row, c) =>
          match testPhase arts ts with
          | .error e => .error e
          | .ok (rs, rows, cs, f) =>
              .ok (r :: rs, row :: rows, c :: cs, (if r.ok then 0 else 1) + f)

/-- Embedding of `run_pipeline` (`src/sim/runner.py:267-354`).  The
`try` block catches only `ConfigError` (exit code 2 with diagnostic);
other Python exceptions propagate as `PipeError.pyError`. -/
def run_pipeline (v : Yaml) (dry_run : Bool) : Except PipeError RunOutput :=
  match validate_config v with
  | .error (.config e) => .ok ⟨2, some e, none, [], []⟩
  | .error .pyError => .error .pyError
  | .ok _ =>
    match load_config v with
    | .error e => .ok ⟨2, some e, none, [], []⟩
    | .ok cfg =>
      match modulesOf cfg with
      | .error e => .error e
      | .ok modules =>
        match testsOf cfg with
        | .error e => .error e
        | .ok tests =>
          if dry_run then .ok ⟨0, none, some ⟨true, 0, [], []⟩, [], []⟩
          else
            match buildPhase modules [] with
            | .error e => .error e
            | .ok (arts, brows, bcalls) =>
              match testPhase arts tests with
              | .error e => .error e
              | .ok (results, trows, tcalls, failures) =>
                .ok ⟨if failures = 0 then 0 else 1, none,
                     some ⟨false, failures, results, arts⟩,
                     brows ++ trows, bcalls ++ tcalls⟩

/-! ## Check-order reformulation (for the validation-order claim)

`orderedValidate` restates the validator in first-failing-check style: the
conversion of module entries to trimmed names (which can crash on
non-mapping entries), then check 1 over all modules, check 2 over all
modules, then for each module in configuration order the payload check
before the seconds check, then for each test in configuration order the
name, module-reference and seconds checks — module validation entirely
before test validation.  It is compared with `validate_config` by a
refinement theorem. -/

/-- First failing per-module check (payload presence, then seconds sign)
for a single module dict. -/
def specModuleEntryErr (d : Dict) : Option PipeError :=
  if !hasKey d "payload" then some (.config (.missingPayload (pyGet d "name")))
  else
    match lookupKV d "seconds" with
    | none => none
    | some sv =>
        match pyFloat sv with
        | none => some .pyError
        | some q => if q < 0 then some (.config (.negativeModuleSeconds (pyGet d "name"))) else none

/-- First failing per-test check (name, then module reference, then
seconds sign) for a single test entry. -/
def specTestEntryErr (names : List String) (t : Yaml) : Option PipeError :=
  match t.asDict with
  | none => some .pyError
  | some d =>
      let name := pyStrip (pyStr (getD d "name" (.str "")))
      if name = "" then some (.config .emptyTestName)
      else
        let target := pyStrip (pyStr (getD d "module" (.str "")))
        if target ∈ names then
          match lookupKV d "seconds" with
          | none => none
          | some sv =>
              match pyFloat sv with
              | none => some .pyError
              | some q => if q < 0 then some (.config (.negativeTestSeconds name)) else none
        else some (.config (.unknownModuleRef name target))

/-- The whole validator in explicit first-error-wins order. -/
def orderedValidate (v : Yaml) : Except PipeError Unit :=
  match load_config v with
  | .error e => .error (.config e)
  | .ok cfg =>
    match modulesOf cfg with
    | .error e => .error e
    | .ok mods =>
      match testsOf cfg with
      | .error e => .error e
      | .ok tests =>
        match mapNames mods with
        | .error e => .error e
        | .ok names =>
          if names.any (fun n => n == "") then .error (.config .emptyModuleName)
          else
            let dupes := List.insertionSort (fun a b => a ≤ b)
              ((names.filter (fun n => 1 < names.count n)).dedup)
            if !dupes.isEmpty then .error (.config (.duplicateModuleNames dupes))
            else
              match mods.findSome? (fun m =>
                  match m.asDict with
                  | none => some PipeError.pyError
                  | some d => specModuleEntryErr d) with
              | some e => .error e
              | none =>
                match rawNames mods with
                | .error e => .error e
                | .ok mod_names =>
                  match tests.findSome? (specTestEntryErr mod_names) with
                  | some e => .error e
                  | none => .ok ()

/-! ## Concrete configurations used in the theorems -/

/-- The expected digest of spec section 8 for `core` + `src@abc123`. -/
def coreDigest : String := "4fc41e5669eafc53d839cd3f1f8c5fa4b5406f85ea35f94da8a4d9151e7523de"

def sampleModuleDict : Dict :=
  [("name", .str "core"), ("payload", .str "src@abc123"), ("seconds", .int 0)]

def sampleTestDict : Dict :=
  [("name", .str "unit-core"), ("module", .str "core"), ("seconds", .int 0),
   ("expected_digest", .str coreDigest)]

def cfgSampleDict : Dict :=
  [("modules", .list [.map sampleModuleDict]), ("tests", .list [.map sampleTestDict])]

/-- The end-to-end configuration of spec section 8: one module
`core / src@abc123 / 0` and one test `unit-core` expecting the digest. -/
def cfgSample : Yaml := .map cfgSampleDict

/-- The artifact map after the sample build phase. -/
def sampleArts : List (String × String) := [("core", coreDigest)]

/-- List of the test-phase `_do_work` argument triples, in configuration
order. -/
def testCalls : List Yaml → Except PipeError (List WorkCall)
  | [] => .ok []
  | t :: ts =>
      match testCallOf t with
      | .error e => .error e
      | .ok c =>
          match testCalls ts with
          | .error e => .error e
          | .ok cs => .ok (c :: cs)

def dupTestDict : Dict := [("name", .str "dup"), ("module", .str "core"), ("seconds", .int 0)]

/-- First module has payload but negative seconds; second module lacks a
payload key. -/
def cfgNegThenMissing : Yaml := .map [("modules", .list
  [.map [("name", .str "a"), ("payload", .str "p"), ("seconds", .float (-1))],
   .map [("name", .str "b")]])]

/-- First test references an unknown module; second test has an empty
trimmed name. -/
def cfgUnknownThenEmpty : Yaml := .map [
  ("modules", .list [.map [("name", .str "m"), ("payload", .str "p")]]),
  ("tests", .list [.map [("name", .str "t1"), ("module", .str "zzz")],
                   .map [("name", .str "   ")]])]

def padTestDict : Dict := [("name", .str "t"), ("module", .str "core")]

/-- Module raw name carries surrounding whitespace; the test references it
by the trimmed spelling. -/
def cfgPaddedModuleName : Yaml := .map [
  ("modules", .list [.map [("name", .str " core "), ("payload", .str "p")]]),
  ("tests", .list [.map padTestDict])]

/-- Two tests sharing the same name, both referencing the same module. -/
def cfgDupTests : Yaml := .map [
  ("modules", .list [.map [("name", .str "core"), ("payload", .str "p"),
                           ("seconds", .int 0)]]),
  ("tests", .list [.map dupTestDict, .map dupTestDict])]

end Sim

/-! ## Theorems -/

namespace Sim

/-- Claim C2: for every name, payload and seconds, the digest returned by
the work simulator is the SHA-256 hex digest of `name ++ payload` (fixed
order, no separator), and it is independent of the seconds argument (the
simulator is a pure function, so repeated invocations coincide
definitionally). -/
theorem C2_digest_content (name payload : String) (s₁ s₂ : ℚ) :
    (do_work name payload s₁).1 = sha256Hex (strBytes (name ++ payload)) ∧
    (do_work name payload s₁).1 = (do_work name payload s₂).1 :=
  ⟨rfl, rfl⟩

/-- Claim C5, counterexample: the empty list is a non-mapping top-level
value (and not an empty document), yet `_load_config` accepts it as an
empty configuration instead of raising NotMapping. -/
theorem C5_counterexample :
    load_config (.list []) = .ok [] ∧ Yaml.isMap (.list []) = false :=
  ⟨rfl, rfl⟩

/-- Claim C5 as amended: loading fails with NotMapping iff the top-level
parsed value is truthy and not a mapping; every falsy value (empty
document, null, false, zero, empty string, empty list) is treated as an
empty mapping, and a mapping is returned as is. -/
theorem C5_not_mapping (v : Yaml) :
    (load_config v = .error .notMapping ↔ pyTruthy v = true ∧ v.isMap = false) ∧
    (pyTruthy v = false → load_config v = .ok []) ∧
    (∀ kvs, v = .map kvs → load_config v = .ok kvs) := by
  cases v with
  | null => simp [load_config, pyTruthy, Yaml.isMap]
  | bool b => cases b <;> simp [load_config, pyTruthy, Yaml.isMap]
  | int n =>
      rcases eq_or_ne n 0 with h | h <;>
        simp [load_config, pyTruthy, Yaml.isMap, h]
  | float q =>
      rcases eq_or_ne q 0 with h | h <;>
        simp [load_config, pyTruthy, Yaml.isMap, h]
  | str s =>
      rcases eq_or_ne s "" with h | h <;>
        simp [load_config, pyTruthy, Yaml.isMap, h]
  | list xs => cases xs <;> simp [load_config, pyTruthy, Yaml.isMap]
  | map kvs => cases kvs <;> simp [load_config, pyTruthy, Yaml.isMap]

/-- Claim C5 witness: the amended characterization applied to the
concrete non-empty list document. -/
theorem C5_witness : load_config (.list [.null]) = .error .notMapping :=
  (C5_not_mapping (.list [.null])).1.mpr ⟨rfl, rfl⟩

/-- Claim C7: for a configuration that validates, a dry run returns exit
code 0 with a dry-marked RunResult carrying zero tests, artifacts and
failures, an empty telemetry sequence and no WorkSimulator invocations;
a configuration error during validation still yields the config-error
outcome (exit code 2 with the diagnostic). -/
theorem C7_dry_run (v : Yaml) :
    (validate_config v = .ok () →
       run_pipeline v true = .ok ⟨0, none, some ⟨true, 0, [], []⟩, [], []⟩) ∧
    (∀ e, validate_config v = .error (.config e) →
       run_pipeline v true = .ok ⟨2, some e, none, [], []⟩) := by
  constructor
  · intro h
    have hv := h
    unfold validate_config at hv
    unfold run_pipeline
    rcases hl : load_config v with e | cfg
    · simp only [hl] at hv
      exact Except.noConfusion hv
    · simp only [hl] at hv
      rcases hm : modulesOf cfg with e | mods
      · simp only [hm] at hv
        exact Except.noConfusion hv
      · simp only [hm] at hv
        rcases ht : testsOf cfg with e | tests
        · simp only [ht] at hv
          exact Except.noConfusion hv
        · simp [h, hl, hm, ht]
  · intro e he
    unfold run_pipeline
    rw [he]

/-- Claim C7 witness: the dry-run statement applied to the sample
configuration. -/
theorem C7_witness :
    run_pipeline cfgSample true = .ok ⟨0, none, some ⟨true, 0, [], []⟩, [], []⟩ :=
  (C7_dry_run cfgSample).1 rfl

set_option linter.unnecessarySeqFocus false in
/-- The pass/fail comparison holds exactly when the expected digest is
absent (None) or is the string recorded in the artifact map for the
target. -/
theorem okCompare_eq_true_iff (arts : List (String × String)) (expected : Yaml) (target : String) :
    okCompare arts expected target = true ↔
      (expected = .null ∨ ∃ e, expected = .str e ∧ lookupArtifact arts target = some e) := by
  rcases hstr : expected with _ | b | n | q | s | xs | kvs
  case str =>
    rcases hl : lookupArtifact arts target with _ | dg
    · simp [okCompare, Yaml.isNull, yamlEqStr, hl]
    · simp only [okCompare, Yaml.isNull, Bool.false_or, hl, yamlEqStr, beq_iff_eq]
      constructor
      · intro h; exact Or.inr ⟨dg, by rw [h], rfl⟩
      · rintro (h | ⟨e, he, hsome⟩)
        · exact Yaml.noConfusion h
        · injection he with he'
          injection hsome with hs'
          rw [he', hs']
  all_goals rcases hl : lookupArtifact arts target with _ | dg <;>
    simp [okCompare, Yaml.isNull, yamlEqStr, hl]

set_option maxRecDepth 8000 in
/-- Claim C3: a test's result has `ok = true` exactly when its
`expected_digest` is absent or equals the artifact digest recorded for
the test's target module; and on the spec's end-to-end sample the run
exits 0, records `artifacts["core"] = coreDigest` and yields `ok = true`
for `unit-core`. -/
theorem C3_test_ok :
    (∀ (arts : List (String × String)) (d : Dict) (r : TestResult) (row : TeleRow) (c : WorkCall),
        runOneTest arts (.map d) = .ok (r, row, c) →
        (r.ok = true ↔
          (pyGet d "expected_digest" = .null ∨
           ∃ e, pyGet d "expected_digest" = .str e ∧
                lookupArtifact arts (pyStr (getD d "module" (.str ""))) = some e))) ∧
    run_pipeline cfgSample false = .ok ⟨0, none,
      some ⟨false, 0, [⟨"unit-core", "core", true, 0⟩], [("core", coreDigest)]⟩,
      [⟨"build", "core", 0, .digest coreDigest⟩, ⟨"test", "unit-core", 0, .okFlag true⟩],
      [⟨"core", "src@abc123", 0⟩, ⟨"unit-core", "core", 0⟩]⟩ := by
  constructor
  · intro arts d r row c h
    unfold runOneTest at h
    simp only [Yaml.asDict] at h
    rcases hn : lookupKV d "name" with _ | nv
    · simp only [hn] at h; exact Except.noConfusion h
    · simp only [hn] at h
      rcases hs : pyFloat (getD d "seconds" (.float (0.1 : ℚ))) with _ | q
      · simp only [hs] at h; exact Except.noConfusion h
      · simp only [hs] at h
        simp only [Except.ok.injEq, Prod.mk.injEq] at h
        obtain ⟨h1, h2, h3⟩ := h
        subst h1
        exact okCompare_eq_true_iff arts (pyGet d "expected_digest")
          (pyStr (getD d "module" (.str "")))
  · rfl

/-- Claim C3 witness: the ok-condition applied to the sample test against
the sample artifact map. -/
theorem C3_witness :
    (⟨"unit-core", "core", true, 0⟩ : TestResult).ok = true ↔
      (pyGet sampleTestDict "expected_digest" = .null ∨
       ∃ e, pyGet sampleTestDict "expected_digest" = .str e ∧
            lookupArtifact sampleArts (pyStr (getD sampleTestDict "module" (.str ""))) = some e) :=
  C3_test_ok.1 sampleArts sampleTestDict ⟨"unit-core", "core", true, 0⟩
    ⟨"test", "unit-core", 0, .okFlag true⟩ ⟨"unit-core", "core", 0⟩ rfl

/-- In a successful test-loop iteration, the third component of the
result is exactly the `_do_work` argument triple of that test. -/
theorem runOneTest_call (arts : List (String × String)) (t : Yaml)
    (r : TestResult) (row : TeleRow) (c : WorkCall) :
    runOneTest arts t = .ok (r, row, c) → testCallOf t = .ok c := by
  unfold runOneTest testCallOf
  rcases hd : t.asDict with _ | d <;> simp only [hd]
  · intro h; exact Except.noConfusion h
  · rcases hn : lookupKV d "name" with _ | nv <;> simp only [hn]
    · intro h; exact Except.noConfusion h
    · rcases hs : pyFloat (getD d "seconds" (.float (0.1 : ℚ))) with _ | q <;> simp only [hs]
      · intro h; exact Except.noConfusion h
      · intro h
        simp only [Except.ok.injEq, Prod.mk.injEq] at h
        obtain ⟨h1, h2, h3⟩ := h
        rw [← h3]

/-- Claim C9: in the test phase the work simulator is invoked, for each
test in configuration order, with the test's own name as identity, the
raw module target string as payload and seconds defaulted to 0.1 — and
the digest computed by that invocation is the SHA-256 hex digest of
`test_name ++ module_target`. -/
theorem C9_test_phase_args :
    ∀ (arts : List (String × String)) (tests : List Yaml) res rows calls f,
      testPhase arts tests = .ok (res, rows, calls, f) →
      testCalls tests = .ok calls ∧
      ∀ c ∈ calls,
        (do_work c.name c.payload c.seconds).1 = sha256Hex (strBytes (c.name ++ c.payload)) := by
  intro arts tests
  induction tests with
  | nil =>
      intro res rows calls f h
      unfold testPhase at h
      simp only [Except.ok.injEq, Prod.mk.injEq] at h
      obtain ⟨h1, h2, h3, h4⟩ := h
      subst h3
      exact ⟨rfl, by simp⟩
  | cons t ts ih =>
      intro res rows calls f h
      unfold testPhase at h
      rcases hr : runOneTest arts t with e | ⟨r, row, c⟩
      · simp only [hr] at h; exact Except.noConfusion h
      · simp only [hr] at h
        rcases hp : testPhase arts ts with e | ⟨rs, rows', cs, f'⟩
        · simp only [hp] at h; exact Except.noConfusion h
        · simp only [hp] at h
          simp only [Except.ok.injEq, Prod.mk.injEq] at h
          obtain ⟨h1, h2, h3, h4⟩ := h
          subst h3
          obtain ⟨ihc, ihd⟩ := ih rs rows' cs f' hp
          have hco := runOneTest_call arts t r row c hr
          constructor
          · unfold testCalls
            simp only [hco, ihc]
          · intro c' hc'
            rcases List.mem_cons.mp hc' with hh | hh
            · subst hh; rfl
            · exact ihd c' hh

/-- Claim C9 witness: the test-phase call trace of the sample
configuration's single test. -/
theorem C9_witness : testCalls [.map sampleTestDict] = .ok [⟨"unit-core", "core", 0⟩] :=
  (C9_test_phase_args sampleArts [.map sampleTestDict]
    [⟨"unit-core", "core", true, 0⟩] [⟨"test", "unit-core", 0, .okFlag true⟩]
    [⟨"unit-core", "core", 0⟩] 0 rfl).1

/-- The incremented failure counter of the test loop equals the number of
results with `ok = false`. -/
theorem testPhase_failures (arts : List (String × String)) :
    ∀ (ts : List Yaml) res rows calls f,
      testPhase arts ts = .ok (res, rows, calls, f) →
      f = (res.filter (fun r => r.ok = false)).length := by
  intro ts
  induction ts with
  | nil =>
      intro res rows calls f h
      unfold testPhase at h
      simp only [Except.ok.injEq, Prod.mk.injEq] at h
      obtain ⟨h1, h2, h3, h4⟩ := h
      subst h1 h4
      rfl
  | cons t ts ih =>
      intro res rows calls f h
      unfold testPhase at h
      rcases hr : runOneTest arts t with e | ⟨r, row, c⟩
      · simp only [hr] at h; exact Except.noConfusion h
      · simp only [hr] at h
        rcases hp : testPhase arts ts with e | ⟨rs, rows', cs, f'⟩
        · simp only [hp] at h; exact Except.noConfusion h
        · simp only [hp] at h
          simp only [Except.ok.injEq, Prod.mk.injEq] at h
          obtain ⟨h1, h2, h3, h4⟩ := h
          subst h1 h4
          have hf := ih rs rows' cs f' hp
          cases hok : r.ok <;> simp [List.filter_cons, hok, hf]
          all_goals omega

/-- Claim C6: the exit code is 2 exactly on the config-error outcome (a
structured diagnostic and no results object), otherwise the run completes
with a results object whose `failures` field counts the results with
`ok = false`, and the exit code is 1 when that count is nonzero and 0
otherwise. -/
theorem C6_exit_codes (v : Yaml) (dry : Bool) (out : RunOutput)
    (h : run_pipeline v dry = .ok out) :
    (∀ e, out.diagnostic = some e → out.exitCode = 2 ∧ out.result = none) ∧
    (∀ r, out.result = some r →
       out.diagnostic = none ∧
       r.failures = (r.tests.filter (fun t => t.ok = false)).length ∧
       out.exitCode = if r.failures = 0 then 0 else 1) := by
  unfold run_pipeline at h
  rcases hv : validate_config v with e | u
  case error =>
    rcases e with e | _
    · simp only [hv] at h
      injection h with h2
      subst h2
      refine ⟨fun e' he' => ⟨rfl, rfl⟩, fun r hr => Option.noConfusion hr⟩
    · simp only [hv] at h
      exact Except.noConfusion h
  case ok =>
    simp only [hv] at h
    rcases hl : load_config v with e | cfg
    · simp only [hl] at h
      injection h with h2
      subst h2
      refine ⟨fun e' he' => ⟨rfl, rfl⟩, fun r hr => Option.noConfusion hr⟩
    · simp only [hl] at h
      rcases hm : modulesOf cfg with e | mods
      · simp only [hm] at h; exact Except.noConfusion h
      · simp only [hm] at h
        rcases ht : testsOf cfg with e | tests
        · simp only [ht] at h; exact Except.noConfusion h
        · simp only [ht] at h
          cases dry
          case true =>
            rw [if_pos rfl] at h
            injection h with h2
            subst h2
            refine ⟨fun e' he' => Option.noConfusion he', fun r hr => ?_⟩
            simp only [Option.some.injEq] at hr
            subst hr
            exact ⟨rfl, rfl, rfl⟩
          case false =>
            rw [if_neg Bool.false_ne_true] at h
            rcases hb : buildPhase mods [] with e | ⟨arts, brows, bcalls⟩
            · simp only [hb] at h; exact Except.noConfusion h
            · simp only [hb] at h
              rcases htp : testPhase arts tests with e | ⟨results, trows, tcalls, failures⟩
              · simp only [htp] at h; exact Except.noConfusion h
              · simp only [htp] at h
                injection h with h2
                subst h2
                refine ⟨fun e' he' => Option.noConfusion he', fun r hr => ?_⟩
                simp only [Option.some.injEq] at hr
                subst hr
                exact ⟨rfl, testPhase_failures arts tests results trows tcalls failures htp, rfl⟩

set_option maxRecDepth 8000 in
/-- Claim C6 witness: the exit-code characterization applied to the
sample run. -/
theorem C6_witness :
    (⟨false, 0, [⟨"unit-core", "core", true, 0⟩], [("core", coreDigest)]⟩ : RunResult).failures =
      ((([⟨"unit-core", "core", true, 0⟩] : List TestResult)).filter
        (fun t => t.ok = false)).length :=
  ((C6_exit_codes cfgSample false
      ⟨0, none,
       some ⟨false, 0, [⟨"unit-core", "core", true, 0⟩], [("core", coreDigest)]⟩,
       [⟨"build", "core", 0, .digest coreDigest⟩, ⟨"test", "unit-core", 0, .okFlag true⟩],
       [⟨"core", "src@abc123", 0⟩, ⟨"unit-core", "core", 0⟩]⟩ rfl).2
    ⟨false, 0, [⟨"unit-core", "core", true, 0⟩], [("core", coreDigest)]⟩ rfl).2.1

/-- Claim C10: test validation is pointwise (a list of tests validates
exactly when each test validates in isolation, so duplicate names are
accepted), and the test phase emits exactly one TestResult and one test
telemetry row per test occurrence, prepending them in configuration
order without merging. -/
theorem C10_duplicate_tests :
    (∀ (names : List String) (t : Yaml) (ts : List Yaml),
        validate_tests (t :: ts) names = .ok () ↔
          (validate_tests [t] names = .ok () ∧ validate_tests ts names = .ok ())) ∧
    (∀ (arts : List (String × String)) (t : Yaml) (ts : List Yaml) r row c rs rows cs f,
        runOneTest arts t = .ok (r, row, c) → testPhase arts ts = .ok (rs, rows, cs, f) →
        testPhase arts (t :: ts) =
          .ok (r :: rs, row :: rows, c :: cs, (if r.ok then 0 else 1) + f)) ∧
    (∀ (arts : List (String × String)) (ts : List Yaml) res rows calls f,
        testPhase arts ts = .ok (res, rows, calls, f) →
        res.length = ts.length ∧ rows.length = ts.length ∧
        ∀ row ∈ rows, row.stage = "test") := by
  refine ⟨?_, ?_, ?_⟩
  · intro names t ts
    rcases hd : t.asDict with _ | d
    · simp [validate_tests, hd]
    · simp only [validate_tests, hd]
      by_cases h1 : pyStrip (pyStr (getD d "name" (.str ""))) = ""
      · simp [h1]
      · simp only [if_neg h1]
        by_cases h2 : pyStrip (pyStr (getD d "module" (.str ""))) ∈ names
        · simp only [if_pos h2]
          rcases h3 : lookupKV d "seconds" with _ | sv
          · simp [h3, validate_tests]
          · simp only [h3]
            rcases h4 : pyFloat sv with _ | q
            · simp [h4]
            · simp only [h4]
              by_cases h5 : q < 0 <;> simp [h5, validate_tests]
        · simp [if_neg h2]
  · intro arts t ts r row c rs rows cs f h1 h2
    unfold testPhase
    simp only [h1, h2]
  · intro arts ts
    induction ts with
    | nil =>
        intro res rows calls f h
        unfold testPhase at h
        simp only [Except.ok.injEq, Prod.mk.injEq] at h
        obtain ⟨h1, h2, h3, h4⟩ := h
        subst h1 h2
        exact ⟨rfl, rfl, by simp⟩
    | cons t ts ih =>
        intro res rows calls f h
        unfold testPhase at h
        rcases hr : runOneTest arts t with e | ⟨r, row, c⟩
        · simp only [hr] at h; exact Except.noConfusion h
        · simp only [hr] at h
          rcases hp : testPhase arts ts with e | ⟨rs, rows', cs, f'⟩
          · simp only [hp] at h; exact Except.noConfusion h
          · simp only [hp] at h
            simp only [Except.ok.injEq, Prod.mk.injEq] at h
            obtain ⟨h1, h2, h3, h4⟩ := h
            subst h1 h2
            obtain ⟨ih1, ih2, ih3⟩ := ih rs rows' cs f' hp
            refine ⟨by simp [ih1], by simp [ih2], ?_⟩
            intro row' hrow'
            rcases List.mem_cons.mp hrow' with hh | hh
            · subst hh
              unfold runOneTest at hr
              rcases hdd : t.asDict with _ | d
              · simp only [hdd] at hr; exact Except.noConfusion hr
              · simp only [hdd] at hr
                rcases hn : lookupKV d "name" with _ | nv
                · simp only [hn] at hr; exact Except.noConfusion hr
                · simp only [hn] at hr
                  rcases hs : pyFloat (getD d "seconds" (.float (0.1 : ℚ))) with _ | q
                  · simp only [hs] at hr; exact Except.noConfusion hr
                  · simp only [hs] at hr
                    simp only [Except.ok.injEq, Prod.mk.injEq] at hr
                    obtain ⟨g1, g2, g3⟩ := hr
                    rw [← g2]
            · exact ih3 row' hh

/-- Claim C10 witness: two tests with the same name validate, and the
pointwise decomposition applies to them. -/
theorem C10_witness :
    validate_tests [.map dupTestDict, .map dupTestDict] ["core"] = .ok () :=
  (C10_duplicate_tests.1 ["core"] (.map dupTestDict) [.map dupTestDict]).mpr ⟨rfl, rfl⟩

/-- Python `list()` only raises `TypeError`, never a configuration
error. -/
theorem pyListE_error (x : Yaml) (e : PipeError) : pyListE x = .error e → e = .pyError := by
  cases x <;> intro h <;>
    first
      | exact (Except.error.inj h).symm
      | exact Except.noConfusion h

theorem modulesOf_error (cfg : Dict) (e : PipeError) :
    modulesOf cfg = .error e → e = .pyError :=
  pyListE_error _ _

theorem testsOf_error (cfg : Dict) (e : PipeError) :
    testsOf cfg = .error e → e = .pyError :=
  pyListE_error _ _

theorem explainModule_error (dig : Bool) (m : Yaml) (e : PipeError) :
    explainModule dig m = .error e → e = .pyError := by
  unfold explainModule
  rcases hd : m.asDict with _ | d <;> simp only [hd]
  · intro h; exact (Except.error.inj h).symm
  · rcases hs : pyFloat (getD d "seconds" (.float (0.2 : ℚ))) with _ | q <;> simp only [hs]
    · intro h; exact (Except.error.inj h).symm
    · intro h; exact Except.noConfusion h

theorem explainTest_error (t : Yaml) (e : PipeError) :
    explainTest t = .error e → e = .pyError := by
  unfold explainTest
  rcases hd : t.asDict with _ | d <;> simp only [hd]
  · intro h; exact (Except.error.inj h).symm
  · rcases hs : pyFloat (getD d "seconds" (.float (0.1 : ℚ))) with _ | q <;> simp only [hs]
    · intro h; exact (Except.error.inj h).symm
    · intro h; exact Except.noConfusion h

theorem explainModules_error (dig : Bool) :
    ∀ (ms : List Yaml) (e : PipeError), explainModules dig ms = .error e → e = .pyError := by
  intro ms
  induction ms with
  | nil => intro e h; exact Except.noConfusion h
  | cons m ms ih =>
      intro e h
      unfold explainModules at h
      rcases hm : explainModule dig m with e' | pm
      · simp only [hm] at h
        exact (Except.error.inj h) ▸ explainModule_error dig m e' hm
      · simp only [hm] at h
        rcases hr : explainModules dig ms with e' | rest
        · simp only [hr] at h
          exact (Except.error.inj h) ▸ ih e' hr
        · simp only [hr] at h; exact Except.noConfusion h

theorem explainTests_error :
    ∀ (ts : List Yaml) (e : PipeError), explainTests ts = .error e → e = .pyError := by
  intro ts
  induction ts with
  | nil => intro e h; exact Except.noConfusion h
  | cons t ts ih =>
      intro e h
      unfold explainTests at h
      rcases hm : explainTest t with e' | pt
      · simp only [hm] at h
        exact (Except.error.inj h) ▸ explainTest_error t e' hm
      · simp only [hm] at h
        rcases hr : explainTests ts with e' | rest
        · simp only [hr] at h
          exact (Except.error.inj h) ▸ ih e' hr
        · simp only [hr] at h; exact Except.noConfusion h

theorem explainModules_length (dig : Bool) :
    ∀ (ms : List Yaml) (pms : List PlanModule),
      explainModules dig ms = .ok pms → pms.length = ms.length := by
  intro ms
  induction ms with
  | nil =>
      intro pms h
      injection h with h2
      rw [← h2]
      rfl
  | cons m ms ih =>
      intro pms h
      unfold explainModules at h
      rcases hm : explainModule dig m with e' | pm
      · simp only [hm] at h; exact Except.noConfusion h
      · simp only [hm] at h
        rcases hr : explainModules dig ms with e' | rest
        · simp only [hr] at h; exact Except.noConfusion h
        · simp only [hr] at h
          injection h with h2
          rw [← h2]
          simp [ih rest hr]

/-- A dict without key `k` looks up to `none`. -/
theorem lookupKV_eq_none (d : Dict) (k : String) (h : hasKey d k = false) :
    lookupKV d k = none := by
  have hf : d.find? (fun p => p.1 == k) = none := by
    rw [List.find?_eq_none]
    intro x hx
    have := List.any_eq_false.mp h x hx
    simpa using this
  simp [lookupKV, hf]

set_option maxRecDepth 2000 in
/-- Claim C8: for a loadable document, explain raises no configuration
error (only a Python `TypeError` is possible); the plan's module list
length equals the configured module count; a module entry without a
seconds key gets the default `0.2`, and the digest included on request is
the work simulator's deterministic digest of the entry's name and
payload; a test entry's `expects_digest` flag is true exactly when a
non-null `expected_digest` was supplied, and its value is never exposed
(only the Boolean is). -/
theorem C8_explain (v : Yaml) (cfg : Dict) (hload : load_config v = .ok cfg) :
    (∀ (dig : Bool) (e : PipeError), explain_config v dig = .error e → e = .pyError) ∧
    (∀ (dig : Bool) (plan : Plan) (ms : List Yaml),
        explain_config v dig = .ok plan → modulesOf cfg = .ok ms →
        plan.modules.length = ms.length) ∧
    (∀ (dig : Bool) (d : Dict) (pm : PlanModule),
        explainModule dig (.map d) = .ok pm →
        (hasKey d "seconds" = false → pm.seconds = 0.2) ∧
        pm.expected_digest = (if dig then some (digestOf pm.name pm.payload) else none) ∧
        ∀ s : ℚ, (do_work pm.name pm.payload s).1 = digestOf pm.name pm.payload) ∧
    (∀ (d : Dict) (pt : PlanTest),
        explainTest (.map d) = .ok pt →
        (pt.expects_digest = true ↔ pyGet d "expected_digest" ≠ .null)) := by
  refine ⟨?_, ?_, ?_, ?_⟩
  · intro dig e h
    unfold explain_config at h
    simp only [hload] at h
    rcases hm : modulesOf cfg with e' | mods
    · simp only [hm] at h
      exact (Except.error.inj h) ▸ modulesOf_error cfg e' hm
    · simp only [hm] at h
      rcases ht : testsOf cfg with e' | tests
      · simp only [ht] at h
        exact (Except.error.inj h) ▸ testsOf_error cfg e' ht
      · simp only [ht] at h
        rcases hx : explainModules dig mods with e' | pms
        · simp only [hx] at h
          exact (Except.error.inj h) ▸ explainModules_error dig mods e' hx
        · simp only [hx] at h
          rcases hy : explainTests tests with e' | pts
          · simp only [hy] at h
            exact (Except.error.inj h) ▸ explainTests_error tests e' hy
          · simp only [hy] at h; exact Except.noConfusion h
  · intro dig plan ms h hms
    unfold explain_config at h
    simp only [hload, hms] at h
    rcases ht : testsOf cfg with e' | tests
    · simp only [ht] at h; exact Except.noConfusion h
    · simp only [ht] at h
      rcases hx : explainModules dig ms with e' | pms
      · simp only [hx] at h; exact Except.noConfusion h
      · simp only [hx] at h
        rcases hy : explainTests tests with e' | pts
        · simp only [hy] at h; exact Except.noConfusion h
        · simp only [hy] at h
          injection h with h2
          subst h2
          exact explainModules_length dig ms pms hx
  · intro dig d pm h
    unfold explainModule at h
    simp only [Yaml.asDict] at h
    rcases hs : pyFloat (getD d "seconds" (.float (0.2 : ℚ))) with _ | q
    · simp only [hs] at h; exact Except.noConfusion h
    · simp only [hs] at h
      injection h with h2
      subst h2
      refine ⟨?_, rfl, fun s => rfl⟩
      intro hk
      have hlk := lookupKV_eq_none d "seconds" hk
      rw [getD, hlk] at hs
      simp only [Option.getD, pyFloat, Option.some.injEq] at hs
      exact hs.symm
  · intro d pt h
    unfold explainTest at h
    simp only [Yaml.asDict] at h
    rcases hs : pyFloat (getD d "seconds" (.float (0.1 : ℚ))) with _ | q
    · simp only [hs] at h; exact Except.noConfusion h
    · simp only [hs] at h
      injection h with h2
      subst h2
      cases hpg : pyGet d "expected_digest" <;> simp [Yaml.isNull, hpg]

/-- Claim C8 witness: the explain characterization applied to the sample
configuration. -/
theorem C8_witness :
    ([⟨"core", "src@abc123", 0, none⟩] : List PlanModule).length =
      ([.map sampleModuleDict] : List Yaml).length :=
  (C8_explain cfgSample cfgSampleDict rfl).2.1 false
    ⟨[⟨"core", "src@abc123", 0, none⟩], [⟨.str "unit-core", .str "core", 0, true⟩]⟩
    [.map sampleModuleDict] rfl rfl

/-- The result of dropping leading whitespace never starts with
whitespace. -/
theorem dropLeadWS_no_lead :
    ∀ (l : List Char) (c : Char) (cs : List Char),
      dropLeadWS l = c :: cs → isPySpace c = false := by
  intro l
  induction l with
  | nil => intro c cs h; exact List.noConfusion h
  | cons a as ih =>
      intro c cs h
      unfold dropLeadWS at h
      by_cases ha : isPySpace a = true
      · rw [if_pos ha] at h
        exact ih c cs h
      · rw [if_neg ha] at h
        injection h with h1 h2
        cases hb : isPySpace a
        · rw [← h1]; exact hb
        · exact absurd hb ha

theorem dropLeadWS_id_of_head (c : Char) (cs : List Char) (h : isPySpace c = false) :
    dropLeadWS (c :: cs) = c :: cs := by
  simp [dropLeadWS, h]

theorem dropLeadWS_idem (l : List Char) : dropLeadWS (dropLeadWS l) = dropLeadWS l := by
  rcases h : dropLeadWS l with _ | ⟨c, cs⟩
  · rfl
  · exact dropLeadWS_id_of_head c cs (dropLeadWS_no_lead l c cs h)

/-- Dropping leading whitespace preserves the last element (or empties
the list). -/
theorem dropLeadWS_getLast? :
    ∀ l : List Char, dropLeadWS l = [] ∨ (dropLeadWS l).getLast? = l.getLast? := by
  intro l
  induction l with
  | nil => left; rfl
  | cons a as ih =>
      by_cases ha : isPySpace a = true
      · have hred : dropLeadWS (a :: as) = dropLeadWS as := by simp [dropLeadWS, ha]
        rcases ih with h | h
        · left; rw [hred, h]
        · cases as with
          | nil => left; rw [hred]; rfl
          | cons b bs =>
              right
              rw [hred, h, List.getLast?_cons_cons]
      · right
        rw [dropLeadWS_id_of_head a as (by simpa using ha)]

/-- When a list ends with no whitespace, its reverse loses nothing to a
leading strip. -/
theorem dropLead_rev_eq (w : List Char)
    (h : ∀ a, w.getLast? = some a → isPySpace a = false) :
    dropLeadWS w.reverse = w.reverse := by
  rcases hwr : w.reverse with _ | ⟨d, ds⟩
  · rfl
  · refine dropLeadWS_id_of_head d ds ?_
    refine h d ?_
    rw [← List.head?_reverse, hwr]
    rfl

theorem dropLead_getLast?_some (r : List Char) (a : Char)
    (h : (dropLeadWS r).getLast? = some a) : r.getLast? = some a := by
  rcases dropLeadWS_getLast? r with he | hg
  · rw [he] at h; exact Option.noConfusion h
  · rw [← hg]; exact h

/-- List-level core of `pyStrip` idempotency. -/
theorem stripCore_idem (l : List Char) :
    dropLeadWS ((dropLeadWS (dropLeadWS ((dropLeadWS l.reverse).reverse)).reverse).reverse) =
      dropLeadWS ((dropLeadWS l.reverse).reverse) := by
  have hwlast : ∀ a, (dropLeadWS ((dropLeadWS l.reverse).reverse)).getLast? = some a →
      isPySpace a = false := by
    intro a hA
    have h1 : ((dropLeadWS l.reverse).reverse).getLast? = some a :=
      dropLead_getLast?_some _ a hA
    rw [List.getLast?_reverse] at h1
    rcases hu : dropLeadWS l.reverse with _ | ⟨b, bs⟩
    · rw [hu] at h1; exact Option.noConfusion h1
    · rw [hu] at h1
      injection h1 with hb
      rw [← hb]
      exact dropLeadWS_no_lead l.reverse b bs hu
  have claim1 := dropLead_rev_eq _ hwlast
  rw [claim1, List.reverse_reverse, dropLeadWS_idem]

/-- Python `strip()` is idempotent. -/
theorem pyStrip_idem (s : String) : pyStrip (pyStrip s) = pyStrip s := by
  unfold pyStrip
  exact congrArg String.mk (stripCore_idem s.data)

/-- Claim C4, counterexample: the module's raw name `" core "` trims to
`"core"` and the test references `"core"`, yet validation raises
UnknownModuleRef — the comparison set holds raw, untrimmed names. -/
theorem C4_counterexample :
    pyStrip " core " = pyStrip "core" ∧
    validate_config cfgPaddedModuleName =
      .error (.config (.unknownModuleRef "t" "core")) :=
  ⟨rfl, rfl⟩

/-- Claim C4 as amended: step 6 compares each test's trimmed module field
against the raw (untrimmed) names `str(m.get("name"))` of the validated
modules — UnknownModuleRef is raised exactly when the trimmed target is
not among the raw names; a trimmed target matching no trimmed module name
still always errors (second half of the original claim); and
`validate_config` indeed hands `_validate_tests` the raw name set. -/
theorem C4_module_reference (d : Dict) (names : List String)
    (hname : pyStrip (pyStr (getD d "name" (.str ""))) ≠ "") :
    (validate_tests [.map d] names =
        .error (.config (.unknownModuleRef (pyStrip (pyStr (getD d "name" (.str ""))))
                                           (pyStrip (pyStr (getD d "module" (.str "")))))) ↔
      pyStrip (pyStr (getD d "module" (.str ""))) ∉ names) ∧
    ((∀ n ∈ names, pyStrip n ≠ pyStrip (pyStr (getD d "module" (.str "")))) →
        pyStrip (pyStr (getD d "module" (.str ""))) ∉ names) ∧
    (∀ (v : Yaml) (cfg : Dict) (modules tests : List Yaml) (mod_names : List String),
        load_config v = .ok cfg → modulesOf cfg = .ok modules → testsOf cfg = .ok tests →
        validate_modules modules = .ok () → rawNames modules = .ok mod_names →
        validate_config v = validate_tests tests mod_names) := by
  refine ⟨?_, ?_, ?_⟩
  · by_cases hmem : pyStrip (pyStr (getD d "module" (.str ""))) ∈ names
    · simp only [validate_tests, Yaml.asDict, if_neg hname, if_pos hmem]
      rcases h3 : lookupKV d "seconds" with _ | sv
      · simp [h3, validate_tests, hmem]
      · simp only [h3]
        rcases h4 : pyFloat sv with _ | q
        · simp [h4, hmem]
        · simp only [h4]
          by_cases h5 : q < 0 <;> simp [h5, hmem, validate_tests]
    · simp [validate_tests, Yaml.asDict, if_neg hname, if_neg hmem, hmem]
  · intro hall hmem
    exact hall _ hmem (pyStrip_idem _)
  · intro v cfg modules tests mod_names h1 h2 h3 h4 h5
    unfold validate_config
    simp only [h1, h2, h3, h4, h5]

/-- Claim C4 witness: the amended characterization applied to the
whitespace-padded module name scenario. -/
theorem C4_witness :
    pyStrip (pyStr (getD padTestDict "module" (.str ""))) ∉ [" core "] :=
  (C4_module_reference padTestDict [" core "] (by decide)).1.mp rfl

/-- Claim C1, counterexample: in the claim's first scenario (module `a`
has a payload and negative seconds, module `b` lacks a payload) the code
raises NegativeModuleSeconds for `a`, not MissingPayload for `b`; in the
second (test `t1` targets an unknown module, the second test's trimmed
name is empty) it raises UnknownModuleRef for `t1`, not EmptyTestName —
checks 3-4 and 5-7 are interleaved per entry, not run check-by-check
across all entries. -/
theorem C1_counterexample :
    validate_config cfgNegThenMissing =
      .error (.config (.negativeModuleSeconds (.str "a"))) ∧
    validate_config cfgNegThenMissing ≠
      .error (.config (.missingPayload (.str "b"))) ∧
    validate_config cfgUnknownThenEmpty =
      .error (.config (.unknownModuleRef "t1" "zzz")) ∧
    validate_config cfgUnknownThenEmpty ≠ .error (.config .emptyTestName) := by
  refine ⟨rfl, ?_, rfl, ?_⟩
  · rw [show validate_config cfgNegThenMissing =
        .error (.config (.negativeModuleSeconds (.str "a"))) from rfl]
    simp
  · rw [show validate_config cfgUnknownThenEmpty =
        .error (.config (.unknownModuleRef "t1" "zzz")) from rfl]
    simp

/-- The per-module loop of checks 3-4 equals the first-failing-entry
search. -/
theorem moduleChecksLoop_eq :
    ∀ mods : List Yaml,
      moduleChecksLoop mods =
        match mods.findSome? (fun m =>
            match m.asDict with
            | none => some PipeError.pyError
            | some d => specModuleEntryErr d) with
        | some e => .error e
        | none => .ok () := by
  intro mods
  induction mods with
  | nil => rfl
  | cons m ms ih =>
      unfold moduleChecksLoop
      rw [List.findSome?_cons]
      rcases hd : m.asDict with _ | d
      · simp [hd]
      · simp only [hd]
        cases hp : hasKey d "payload"
        · simp [specModuleEntryErr, hp]
        · rcases h3 : lookupKV d "seconds" with _ | sv
          · simp [specModuleEntryErr, hp, h3, ih]
          · rcases h4 : pyFloat sv with _ | q
            · simp [specModuleEntryErr, hp, h3, h4]
            · by_cases h5 : q < 0 <;> simp [specModuleEntryErr, hp, h3, h4, h5, ih]

/-- The per-test loop of checks 5-7 equals the first-failing-entry
search. -/
theorem validate_tests_eq :
    ∀ (tests : List Yaml) (names : List String),
      validate_tests tests names =
        match tests.findSome? (specTestEntryErr names) with
        | some e => .error e
        | none => .ok () := by
  intro tests names
  induction tests with
  | nil => rfl
  | cons t ts ih =>
      unfold validate_tests
      rw [List.findSome?_cons]
      rcases hd : t.asDict with _ | d
      · simp [specTestEntryErr, hd]
      · simp only [hd]
        by_cases h1 : pyStrip (pyStr (getD d "name" (.str ""))) = ""
        · simp [specTestEntryErr, hd, h1]
        · simp only [if_neg h1]
          by_cases h2 : pyStrip (pyStr (getD d "module" (.str ""))) ∈ names
          · simp only [if_pos h2]
            rcases h3 : lookupKV d "seconds" with _ | sv
            · simp [specTestEntryErr, hd, h1, h2, h3, ih]
            · rcases h4 : pyFloat sv with _ | q
              · simp [specTestEntryErr, hd, h1, h2, h3, h4]
              · by_cases h5 : q < 0 <;>
                  simp [specTestEntryErr, hd, h1, h2, h3, h4, h5, ih]
          · simp [specTestEntryErr, hd, h1, if_neg h2, h2]

/-- Claim C1 as amended: the validator is first-error-wins in the order —
module-entry name conversion (crashing on non-mapping entries), check 1
over all modules, check 2 over all modules, then per module in
configuration order payload (3) before seconds (4), then per test in
configuration order name (5), module reference (6), seconds (7); module
validation completes before test validation begins.  `orderedValidate`
spells out exactly that order and coincides with `validate_config` on
every document. -/
theorem C1_validation_order (v : Yaml) : validate_config v = orderedValidate v := by
  unfold validate_config orderedValidate
  rcases hl : load_config v with e | cfg
  · simp only [hl]
  · simp only [hl]
    rcases hm : modulesOf cfg with e | mods
    · simp only [hm]
    · simp only [hm]
      rcases ht : testsOf cfg with e | tests
      · simp only [ht]
      · simp only [ht]
        unfold validate_modules
        rcases hn : mapNames mods with e | names
        · simp only [hn]
        · simp only [hn]
          by_cases hany : names.any (fun n => n == "") = true
          · simp only [if_pos hany]
          · simp only [if_neg hany]
            cases hdup : (List.insertionSort (fun a b => a ≤ b)
                ((names.filter (fun n => 1 < names.count n)).dedup)).isEmpty
            · simp only [hdup, Bool.not_false, if_pos]
            · simp only [hdup, Bool.not_true, if_neg, Bool.false_eq_true, not_false_eq_true]
              rw [moduleChecksLoop_eq mods]
              rcases hfs : mods.findSome? (fun m =>
                  match m.asDict with
                  | none => some PipeError.pyError
                  | some d => specModuleEntryErr d) with _ | e
              · simp only [hfs]
                rcases hrn : rawNames mods with e | mod_names
                · simp only [hrn]
                · simp only [hrn]
                  exact validate_tests_eq tests mod_names
              · simp only [hfs]

end Sim

namespace Sim

set_option maxRecDepth 8000 in
/-- Known-answer test vector: the embedded SHA-256 agrees with the
standard digest of the empty message. -/
theorem sha256_empty_vector :
    sha256Hex (strBytes "") =
      "e3b0c44298fc1c149afbf4c8996fb92427ae41e4649b934ca495991b7852b855" := by decide

end Sim
